import Mathlib

/-!
Shallow embedding of the rock-paper-scissors game engine
(`src/game.py`, `src/player.py`, `src/network.py`,
`Game-Rock-Paper-Scissors/src/save_load.py`) together with theorems
settling the specification claims about it.
-/

namespace RPSSpec

/-- Embeds `Choice` (game.py): the three move symbols. -/
inductive Choice where
  | rock
  | paper
  | scissors
deriving DecidableEq, Fintype

/-- Embeds the `.value` string of each `Choice` enum member. -/
def Choice.value : Choice → String
  | .rock => "rock"
  | .paper => "paper"
  | .scissors => "scissors"

/-- Embeds `GameResult` (game.py): outcome from player 1's perspective. -/
inductive GameResult where
  | win
  | lose
  | draw
deriving DecidableEq, Fintype

/-- Embeds the `.value` string of each `GameResult` enum member. -/
def GameResult.value : GameResult → String
  | .win => "win"
  | .lose => "lose"
  | .draw => "draw"

/-- Embeds `GameMode` (game.py). -/
inductive GameMode where
  | vs_ai
  | vs_player
  | ai_vs_ai
  | vs_local_player
deriving DecidableEq, Fintype

/-- Embeds one of the two per-player sub-dicts built by `save_round`
(game.py lines 121-137): `{"name": ..., "choice": ..., "score": ...}`.
The `choice` field is `None` in Python when the slot is empty, hence
`Option String` here; Python integers are modelled as `Int`. -/
structure PlayerEntry where
  name : String
  choice : Option String
  score : Int
deriving DecidableEq

/-- Embeds the round-record dict built by `save_round` (game.py):
`{"round": ..., "player1": {...}, "player2": {...}, "result": ...}`. -/
structure RoundData where
  round : Int
  player1 : PlayerEntry
  player2 : PlayerEntry
  result : String
deriving DecidableEq

/-- Embeds the mutable attributes of `RockPaperScissorsGame.__init__`
(game.py) that the game logic reads or writes.  The callbacks, the
history-file name and the file handle are I/O plumbing and carry no
game state. -/
structure GameState where
  player1_score : Int
  player2_score : Int
  round : Int
  history : List RoundData
  game_mode : Option GameMode
  player1_name : String
  player2_name : String
  player1_choice : Option Choice
  player2_choice : Option Choice
deriving DecidableEq

/-- Embeds the attribute values set in `RockPaperScissorsGame.__init__`
(game.py lines 24-36) before `load_history` runs. -/
def init_state : GameState :=
  { player1_score := 0
    player2_score := 0
    round := 1
    history := []
    game_mode := none
    player1_name := "Player 1"
    player2_name := "AI"
    player1_choice := none
    player2_choice := none }

/-- Embeds the `win_conditions` dict of `determine_winner`
(game.py lines 101-105): the move each move beats. -/
def win_conditions : Choice → Choice
  | .rock => .scissors
  | .paper => .rock
  | .scissors => .paper

/-- Embeds `RockPaperScissorsGame.determine_winner` (game.py lines 94-106).
In Python `if not self.player1_choice or not self.player2_choice` is taken
exactly when a slot is `None` (enum members are truthy), returning DRAW. -/
def determine_winner (s : GameState) : GameResult :=
  match s.player1_choice, s.player2_choice with
  | some c1, some c2 =>
      if c1 = c2 then .draw
      else if win_conditions c1 = c2 then .win else .lose
  | _, _ => .draw

/-- Embeds `RockPaperScissorsGame.update_scores` (game.py lines 108-112). -/
def update_scores (s : GameState) (result : GameResult) : GameState :=
  match result with
  | .win => { s with player1_score := s.player1_score + 1 }
  | .lose => { s with player2_score := s.player2_score + 1 }
  | .draw => s

/-- Embeds `RockPaperScissorsGame.save_round` (game.py lines 120-139):
builds the round-record dict from the current state, appends it to the
in-memory history, and returns it.  (The `save_history` file write it
triggers is modelled separately at the JSON level.) -/
def save_round (s : GameState) (result : GameResult) : GameState × RoundData :=
  let round_data : RoundData :=
    { round := s.round
      player1 := { name := s.player1_name
                   choice := s.player1_choice.map Choice.value
                   score := s.player1_score }
      player2 := { name := s.player2_name
                   choice := s.player2_choice.map Choice.value
                   score := s.player2_score }
      result := result.value }
  ({ s with history := s.history ++ [round_data] }, round_data)

/-- An ASCII apostrophe, kept out of string literals. -/
def apostrophe : String := (Char.ofNat 39).toString

/-- Embeds `RockPaperScissorsGame.get_result_message` (game.py lines 114-118).
When the result is not a draw both choice slots are populated, so the
`Option.getD ""` defaults are never reached on the calling paths. -/
def get_result_message (s : GameState) (result : GameResult) : String :=
  if result = .draw then "It" ++ apostrophe ++ "s a draw!"
  else
    let winner := if result = .win then s.player1_name else s.player2_name
    let c1 := ((s.player1_choice.map Choice.value).getD "").capitalize
    let c2 := (s.player2_choice.map Choice.value).getD ""
    winner ++ " wins! " ++ c1 ++ " beats " ++ c2 ++ "."

/-- Embeds the shared tail of `RockPaperScissorsGame.play_round`
(game.py lines 81-92): compute the result, update scores, append the
round record, advance the round counter, and return the result with its
message.  (The `on_round_end` UI callback is presentation plumbing.) -/
def resolve_round (s : GameState) : GameState × GameResult × String :=
  let result := determine_winner s
  let s2 := update_scores s result
  let s3 := (save_round s2 result).1
  let s4 := { s3 with round := s3.round + 1 }
  (s4, result, get_result_message s4 result)

/-- Embeds `RockPaperScissorsGame.play_round` (game.py lines 66-92).
The two nondeterministic `make_ai_choice()` draws are passed in as the
oracle arguments `ai1`, `ai2`.  A `game_mode` of `none` matches none of
the `if`/`elif` branches and falls through to the resolution tail with
the slots as they stand, exactly as the Python does. -/
def play_round (s : GameState) (choice1 choice2 : Option Choice)
    (ai1 ai2 : Choice) : GameState × GameResult × String :=
  match s.game_mode with
  | some .vs_ai =>
      match choice1 with
      | none => (s, .draw, "Player choice missing")
      | some c1 =>
          resolve_round { s with player1_choice := some c1
                                 player2_choice := some ai1 }
  | some .ai_vs_ai =>
      resolve_round { s with player1_choice := some ai1
                             player2_choice := some ai2 }
  | some .vs_player =>
      match choice1, choice2 with
      | some c1, some c2 =>
          resolve_round { s with player1_choice := some c1
                                 player2_choice := some c2 }
      | _, _ => (s, .draw, "Waiting for both players")
  | some .vs_local_player =>
      match choice1, choice2 with
      | some c1, some c2 =>
          resolve_round { s with player1_choice := some c1
                                 player2_choice := some c2 }
      | _, _ => (s, .draw, "Waiting for both players")
  | none => resolve_round s

/-- Embeds `RockPaperScissorsGame.reset_game` (game.py lines 161-169):
zero the scores, set the round counter back to 1, clear both choice
slots, and clear the history only when `keep_history` is false. -/
def reset_game (s : GameState) (keep_history : Bool) : GameState :=
  let s1 := { s with player1_score := 0
                     player2_score := 0
                     round := 1
                     player1_choice := none
                     player2_choice := none }
  if keep_history then s1 else { s1 with history := [] }

/-- A game state whose only populated slots are the two given moves, as
`play_round` produces just before calling `determine_winner`: the rule
engine reads nothing but the two choice slots. -/
def mkDuel (a b : Choice) : GameState :=
  { init_state with player1_choice := some a, player2_choice := some b }

/-- Decides, from the inputs of `play_round`, whether the call reaches the
resolution tail (rather than an early return): taken from the branch
structure of game.py lines 67-79. -/
def round_resolves (s : GameState) (choice1 choice2 : Option Choice) : Bool :=
  match s.game_mode with
  | some .vs_ai => choice1.isSome
  | some .ai_vs_ai => true
  | some .vs_player => choice1.isSome && choice2.isSome
  | some .vs_local_player => choice1.isSome && choice2.isSome
  | none => true

/-- C1: with both move slots populated, `determine_winner` yields DRAW
exactly when the two moves are equal, and swapping the moves of a
non-draw pair changes the outcome (antisymmetry of the win relation). -/
theorem determine_winner_draw_iff_antisymm (a b : Choice) :
    (determine_winner (mkDuel a b) = .draw ↔ a = b) ∧
    (a ≠ b → determine_winner (mkDuel a b) ≠ determine_winner (mkDuel b a)) := by
  revert a b; decide

/-- Witness for C1 at a concrete distinct pair. -/
theorem determine_winner_draw_iff_antisymm_witness :
    determine_winner (mkDuel .rock .scissors) ≠
      determine_winner (mkDuel .scissors .rock) :=
  (determine_winner_draw_iff_antisymm .rock .scissors).2 (by decide)

/-- C2: the beats table is exactly the 3-cycle ROCK→SCISSORS→PAPER→ROCK,
no move beats itself, and for distinct populated moves the outcome is WIN
precisely when the table maps the first move to the second, LOSE
otherwise. -/
theorem win_conditions_cycle (a b : Choice) :
    win_conditions .rock = .scissors ∧
    win_conditions .scissors = .paper ∧
    win_conditions .paper = .rock ∧
    win_conditions a ≠ a ∧
    (a ≠ b →
      ((determine_winner (mkDuel a b) = .win ↔ win_conditions a = b) ∧
       (determine_winner (mkDuel a b) = .lose ↔ win_conditions a ≠ b))) := by
  revert a b; decide

/-- Witness for C2 at a concrete distinct pair. -/
theorem win_conditions_cycle_witness :
    determine_winner (mkDuel .rock .paper) = .lose :=
  (((win_conditions_cycle .rock .paper).2.2.2.2 (by decide)).2).mpr (by decide)

/-- Helper: the resolution tail leaves the result equal to
`determine_winner`, advances the round counter by one, and moves each
score by the increment `update_scores` dictates. -/
theorem resolve_round_effect (s : GameState) :
    (resolve_round s).2.1 = determine_winner s ∧
    (resolve_round s).1.round = s.round + 1 ∧
    (resolve_round s).1.player1_score =
      (if determine_winner s = .win then s.player1_score + 1
       else s.player1_score) ∧
    (resolve_round s).1.player2_score =
      (if determine_winner s = .lose then s.player2_score + 1
       else s.player2_score) := by
  cases h : determine_winner s <;>
    simp [resolve_round, update_scores, save_round, h]

/-- Helper: whenever `round_resolves` holds, `play_round` is the
resolution tail applied to a state with the same scores and round
counter as the input state. -/
theorem play_round_via_resolve (s : GameState) (choice1 choice2 : Option Choice)
    (ai1 ai2 : Choice) (h : round_resolves s choice1 choice2 = true) :
    ∃ s1 : GameState,
      s1.player1_score = s.player1_score ∧
      s1.player2_score = s.player2_score ∧
      s1.round = s.round ∧
      play_round s choice1 choice2 ai1 ai2 = resolve_round s1 := by
  cases hm : s.game_mode with
  | none => exact ⟨s, rfl, rfl, rfl, by simp [play_round, hm]⟩
  | some m =>
    cases m with
    | vs_ai =>
      cases choice1 with
      | none => simp [round_resolves, hm] at h
      | some c1 =>
        exact ⟨{ s with player1_choice := some c1, player2_choice := some ai1 },
          rfl, rfl, rfl, by simp [play_round, hm]⟩
    | ai_vs_ai =>
      exact ⟨{ s with player1_choice := some ai1, player2_choice := some ai2 },
        rfl, rfl, rfl, by simp [play_round, hm]⟩
    | vs_player =>
      cases choice1 with
      | none => simp [round_resolves, hm] at h
      | some c1 =>
        cases choice2 with
        | none => simp [round_resolves, hm] at h
        | some c2 =>
          exact ⟨{ s with player1_choice := some c1, player2_choice := some c2 },
            rfl, rfl, rfl, by simp [play_round, hm]⟩
    | vs_local_player =>
      cases choice1 with
      | none => simp [round_resolves, hm] at h
      | some c1 =>
        cases choice2 with
        | none => simp [round_resolves, hm] at h
        | some c2 =>
          exact ⟨{ s with player1_choice := some c1, player2_choice := some c2 },
            rfl, rfl, rfl, by simp [play_round, hm]⟩

/-- C3: whenever `play_round` reaches the resolution tail, a WIN
increments player 1's score only, a LOSE increments player 2's score
only, a DRAW increments neither, and the round counter always advances
by exactly 1. -/
theorem play_round_score_round_effect (s : GameState)
    (choice1 choice2 : Option Choice) (ai1 ai2 : Choice)
    (h : round_resolves s choice1 choice2 = true) :
    ((play_round s choice1 choice2 ai1 ai2).2.1 = .win →
      (play_round s choice1 choice2 ai1 ai2).1.player1_score = s.player1_score + 1 ∧
      (play_round s choice1 choice2 ai1 ai2).1.player2_score = s.player2_score) ∧
    ((play_round s choice1 choice2 ai1 ai2).2.1 = .lose →
      (play_round s choice1 choice2 ai1 ai2).1.player2_score = s.player2_score + 1 ∧
      (play_round s choice1 choice2 ai1 ai2).1.player1_score = s.player1_score) ∧
    ((play_round s choice1 choice2 ai1 ai2).2.1 = .draw →
      (play_round s choice1 choice2 ai1 ai2).1.player1_score = s.player1_score ∧
      (play_round s choice1 choice2 ai1 ai2).1.player2_score = s.player2_score) ∧
    (play_round s choice1 choice2 ai1 ai2).1.round = s.round + 1 := by
  obtain ⟨s1, e1, e2, e3, epr⟩ := play_round_via_resolve s choice1 choice2 ai1 ai2 h
  rw [epr]
  obtain ⟨hr, hrnd, hp1, hp2⟩ := resolve_round_effect s1
  refine ⟨?_, ?_, ?_, by rw [hrnd, e3]⟩ <;> intro hw <;> rw [hr] at hw <;>
    rw [hw] at hp1 hp2 <;> simp at hp1 hp2 <;>
    exact by constructor <;> omega

/-- Witness for C3: a concrete two-player round where player 1 plays
rock against scissors; the round counter advances by one. -/
theorem play_round_score_round_effect_witness :
    (play_round { init_state with game_mode := some .vs_player }
        (some .rock) (some .scissors) .rock .rock).1.round =
      { init_state with game_mode := some GameMode.vs_player }.round + 1 :=
  (play_round_score_round_effect { init_state with game_mode := some .vs_player }
    (some .rock) (some .scissors) .rock .rock (by decide)).2.2.2

/-- C4: in two-player mode, if only one of the two moves was submitted,
`play_round` returns the waiting message and the unchanged state — so
scores, round counter and history are all untouched. -/
theorem play_round_waiting_frame (s : GameState)
    (choice1 choice2 : Option Choice) (ai1 ai2 : Choice)
    (hm : s.game_mode = some .vs_player ∨ s.game_mode = some .vs_local_player)
    (hone : (choice1.isSome ∧ choice2 = none) ∨
            (choice1 = none ∧ choice2.isSome)) :
    play_round s choice1 choice2 ai1 ai2 =
      (s, .draw, "Waiting for both players") := by
  rcases hm with hm | hm <;>
    rcases hone with ⟨h1, h2⟩ | ⟨h1, h2⟩ <;>
      cases choice1 <;> cases choice2 <;>
        simp_all [play_round]

/-- Witness for C4: submitting only player 1's move in two-player mode
leaves the state unchanged and reports waiting. -/
theorem play_round_waiting_frame_witness :
    play_round { init_state with game_mode := some .vs_player }
        (some .rock) none .rock .rock =
      ({ init_state with game_mode := some GameMode.vs_player },
        .draw, "Waiting for both players") :=
  play_round_waiting_frame { init_state with game_mode := some .vs_player }
    (some .rock) none .rock .rock (Or.inl rfl) (Or.inl ⟨rfl, rfl⟩)

/-- A concrete mid-match state used to exhibit the behaviour of
`reset_game` on its round counter. -/
def reset_example_state : GameState :=
  { init_state with player1_score := 2, player2_score := 1, round := 5 }

/-- C9 counterexample: `reset_game` sets the round counter to 1, its
initial value, not to zero — the claim that reset "sets the round
counter to zero" is false on a concrete mid-match state. -/
theorem reset_game_round_not_zero :
    (reset_game reset_example_state true).round ≠ 0 := by decide

/-- C9 amended: `reset_game` zeroes both score counters, sets the round
counter back to its initial value 1, clears both choice slots, and
clears the history exactly when the caller passes `keep_history = false`;
otherwise the history is left unchanged. -/
theorem reset_game_spec (s : GameState) (keep_history : Bool) :
    (reset_game s keep_history).player1_score = 0 ∧
    (reset_game s keep_history).player2_score = 0 ∧
    (reset_game s keep_history).round = 1 ∧
    (reset_game s keep_history).player1_choice = none ∧
    (reset_game s keep_history).player2_choice = none ∧
    (reset_game s keep_history).history =
      (if keep_history then s.history else []) := by
  cases keep_history <;> simp [reset_game]

/-- Embeds the dict returned by `RockPaperScissorsGame.get_stats`
(game.py lines 171-182).  Python computes `win_rate` with exact `/` on
the integers involved; it is modelled in `Rat`. -/
structure Stats where
  total_games : Int
  wins : Int
  losses : Int
  draws : Int
  win_rate : Rat
deriving DecidableEq

/-- Embeds `RockPaperScissorsGame.get_stats` (game.py lines 171-182). -/
def get_stats (history : List RoundData) : Stats :=
  let total_games : Int := history.length
  let wins : Int :=
    (history.filter (fun g => g.result == GameResult.win.value)).length
  let losses : Int :=
    (history.filter (fun g => g.result == GameResult.lose.value)).length
  { total_games := total_games
    wins := wins
    losses := losses
    draws := total_games - wins - losses
    win_rate :=
      if total_games > 0 then (wins : Rat) / (total_games : Rat) * 100 else 0 }

/-- Embeds the `PlayerStats` dataclass (player.py lines 11-16). -/
structure PlayerStats where
  total_games : Int
  wins : Int
  losses : Int
  draws : Int
deriving DecidableEq

/-- Embeds the `PlayerStats.win_rate` property (player.py lines 18-23). -/
def PlayerStats.win_rate (st : PlayerStats) : Rat :=
  if st.total_games = 0 then 0
  else (st.wins : Rat) / (st.total_games : Rat) * 100

/-- C10: `get_stats` never divides by zero — its `win_rate` is the exact
quotient formula when `total_games > 0` and exactly 0 when
`total_games = 0` — and its counts satisfy
`wins + losses + draws = total_games`; likewise `PlayerStats.win_rate`
is guarded by its `total_games == 0` check. -/
theorem get_stats_win_rate_safe (history : List RoundData) (st : PlayerStats) :
    (get_stats history).wins + (get_stats history).losses +
        (get_stats history).draws = (get_stats history).total_games ∧
    ((get_stats history).total_games > 0 →
      (get_stats history).win_rate =
        ((get_stats history).wins : Rat) /
          ((get_stats history).total_games : Rat) * 100) ∧
    ((get_stats history).total_games = 0 → (get_stats history).win_rate = 0) ∧
    (st.total_games = 0 → st.win_rate = 0) ∧
    (st.total_games ≠ 0 →
      st.win_rate = (st.wins : Rat) / (st.total_games : Rat) * 100) := by
  refine ⟨by simp only [get_stats]; omega, ?_, ?_, ?_, ?_⟩
  · intro h
    simp only [get_stats] at h ⊢
    rw [if_pos h]
  · intro h
    simp only [get_stats] at h ⊢
    rw [if_neg (by omega)]
  · intro h
    simp [PlayerStats.win_rate, h]
  · intro h
    simp [PlayerStats.win_rate, h]

/-- A concrete round record with result "win", used as witness input. -/
def sample_round : RoundData :=
  { round := 1
    player1 := { name := "Player 1", choice := some "rock", score := 1 }
    player2 := { name := "AI", choice := some "scissors", score := 0 }
    result := "win" }

/-- Witness for C10 on a one-round history, the empty history, and
concrete player stats. -/
theorem get_stats_win_rate_safe_witness :
    (get_stats [sample_round]).win_rate =
      ((get_stats [sample_round]).wins : Rat) /
        ((get_stats [sample_round]).total_games : Rat) * 100 ∧
    (get_stats []).win_rate = 0 ∧
    (⟨0, 0, 0, 0⟩ : PlayerStats).win_rate = 0 ∧
    (⟨2, 1, 1, 0⟩ : PlayerStats).win_rate =
      (((⟨2, 1, 1, 0⟩ : PlayerStats).wins : Rat) /
        (((⟨2, 1, 1, 0⟩ : PlayerStats).total_games : Rat))) * 100 :=
  ⟨(get_stats_win_rate_safe [sample_round] ⟨0, 0, 0, 0⟩).2.1 (by decide),
   (get_stats_win_rate_safe [] ⟨0, 0, 0, 0⟩).2.2.1 rfl,
   (get_stats_win_rate_safe [] ⟨0, 0, 0, 0⟩).2.2.2.1 rfl,
   (get_stats_win_rate_safe [] ⟨2, 1, 1, 0⟩).2.2.2.2 (by decide)⟩

/-- A JSON value, as produced and consumed by the history persistence
code.  `json.dump`/`json.load` (the text codec of the standard library)
are modelled at the level of this abstract syntax tree; the program only
ever writes strings, integers, `None`, arrays and objects. -/
inductive Json where
  | null
  | str (s : String)
  | num (n : Int)
  | arr (items : List Json)
  | obj (fields : List (String × Json))

/-- Looks a key up in a JSON object, as `dict[...]` access does. -/
def Json.getField (j : Json) (key : String) : Option Json :=
  match j with
  | .obj fields => fields.lookup key
  | _ => none

/-- Reads a JSON string. -/
def Json.asStr : Json → Option String
  | .str s => some s
  | _ => none

/-- Reads a JSON integer. -/
def Json.asNum : Json → Option Int
  | .num n => some n
  | _ => none

/-- Reads a nullable JSON string, as the `choice` field is written. -/
def Json.asOptStr : Json → Option (Option String)
  | .null => some none
  | .str s => some (some s)
  | _ => none

/-- The JSON object `save_round` (game.py lines 123-135) writes for one
player: `{"name": ..., "choice": ..., "score": ...}` with `choice`
serialized as `null` when the slot is empty. -/
def PlayerEntry.toJson (p : PlayerEntry) : Json :=
  .obj [("name", .str p.name),
        ("choice", match p.choice with
                   | some c => .str c
                   | none => .null),
        ("score", .num p.score)]

/-- The JSON object `save_round` writes for one round record. -/
def RoundData.toJson (r : RoundData) : Json :=
  .obj [("round", .num r.round),
        ("player1", r.player1.toJson),
        ("player2", r.player2.toJson),
        ("result", .str r.result)]

/-- Embeds `RockPaperScissorsGame.save_history` (game.py lines 142-147):
the JSON document written to the history file is the array of round
records, in history order. -/
def save_history (history : List RoundData) : Json :=
  .arr (history.map RoundData.toJson)

/-- Modelled from the spec: reading one player sub-object back into a
record.  The source keeps loaded history as untyped parsed JSON, so the
record-level decoding direction asserted by the round-trip property is
spelt out here from the field layout `save_round` writes. -/
def PlayerEntry.ofJson (j : Json) : Option PlayerEntry := do
  let name ← (j.getField "name").bind Json.asStr
  let choice ← (j.getField "choice").bind Json.asOptStr
  let score ← (j.getField "score").bind Json.asNum
  pure { name := name, choice := choice, score := score }

/-- Modelled from the spec: reading one round record back from its JSON
object, inverting the layout `save_round` writes. -/
def RoundData.ofJson (j : Json) : Option RoundData := do
  let round ← (j.getField "round").bind Json.asNum
  let player1 ← (j.getField "player1").bind PlayerEntry.ofJson
  let player2 ← (j.getField "player2").bind PlayerEntry.ofJson
  let result ← (j.getField "result").bind Json.asStr
  pure { round := round, player1 := player1, player2 := player2,
         result := result }

/-- Modelled from the spec: decoding each array element in order,
failing if any element fails. -/
def decode_rounds : List Json → Option (List RoundData)
  | [] => some []
  | j :: rest => do
      let r ← RoundData.ofJson j
      let t ← decode_rounds rest
      pure (r :: t)

/-- Modelled from the spec: deserializing the history document back into
the list of round records, in order. -/
def load_history_records (j : Json) : Option (List RoundData) :=
  match j with
  | .arr items => decode_rounds items
  | _ => none

/-- Helper: one player sub-object round-trips. -/
theorem playerEntry_ofJson_toJson (p : PlayerEntry) :
    PlayerEntry.ofJson p.toJson = some p := by
  cases p with
  | mk name choice score => cases choice <;> rfl

/-- Helper: one round record round-trips. -/
theorem roundData_ofJson_toJson (r : RoundData) :
    RoundData.ofJson r.toJson = some r := by
  cases r with
  | mk round player1 player2 result =>
      simp [RoundData.ofJson, RoundData.toJson, Json.getField,
            List.lookup, playerEntry_ofJson_toJson, Json.asNum, Json.asStr]

/-- C5: serializing any history of round records and deserializing it
yields exactly the original records, in the same order (hence the same
count). -/
theorem history_roundtrip (history : List RoundData) :
    load_history_records (save_history history) = some history := by
  induction history with
  | nil => rfl
  | cons r t ih =>
      simp only [save_history, load_history_records, List.map_cons] at ih ⊢
      simp [decode_rounds, roundData_ofJson_toJson, ih]

/-- The three ways a history-file read can go: the file is absent, the
open/parse raised (caught by the source's `try`/`except`), or the parse
produced a document. -/
inductive LoadOutcome where
  | fileMissing
  | loadError
  | loaded (doc : Json)

namespace Game

/-- Embeds `RockPaperScissorsGame.load_history` (game.py lines 149-156):
a missing file leaves `self.history` (its prior value) untouched, any
exception is caught and resets the history to `[]`, and a successful
parse installs the parsed document. -/
def load_history (o : LoadOutcome) (prior : Json) : Json :=
  match o with
  | .fileMissing => prior
  | .loadError => .arr []
  | .loaded doc => doc

end Game

namespace SaveLoad

/-- Embeds `load_history` (save_load.py lines 9-16): a missing file and
any caught exception both yield the empty list. -/
def load_history (o : LoadOutcome) : Json :=
  match o with
  | .fileMissing => .arr []
  | .loadError => .arr []
  | .loaded doc => doc

/-- Embeds the `MAX_HISTORY` constant of save_load.py. -/
def MAX_HISTORY : Nat := 10

/-- Embeds one summary-log entry: `{"time": ..., "desc": ...}`. -/
structure HistEntry where
  time : String
  desc : String
deriving DecidableEq

/-- Embeds the description string `save_match` (save_load.py lines 22-27)
builds from the result. -/
def match_desc (player_name result : String) : String :=
  if result = "win" then player_name ++ " Win vs AI"
  else if result = "lose" then "AI Win vs " ++ player_name
  else "Draw"

/-- Embeds `save_match` (save_load.py lines 18-37) on the in-memory
summary log: insert the new entry at index 0 and truncate to
`MAX_HISTORY` entries.  The current wall-clock `strftime` result is the
`timestamp` argument; `player_choice` and `opponent_choice` are accepted
and ignored exactly as in the source. -/
def save_match (player_name player_choice opponent_choice result : String)
    (timestamp : String) (prior : List HistEntry) : List HistEntry :=
  let new_entry : HistEntry :=
    { time := timestamp, desc := match_desc player_name result }
  (new_entry :: prior).take MAX_HISTORY

end SaveLoad

/-- C6: a missing history file or a file whose contents fail to parse
yields an empty history in both loaders (game.py starting from the
constructor's empty history, save_load.py unconditionally); both loaders
are total functions, so no load fails fatally. -/
theorem load_history_recovers (prior : Json) :
    Game.load_history .loadError prior = .arr [] ∧
    Game.load_history .fileMissing (.arr []) = .arr [] ∧
    SaveLoad.load_history .fileMissing = .arr [] ∧
    SaveLoad.load_history .loadError = .arr [] :=
  ⟨rfl, rfl, rfl, rfl⟩

/-- C7: after `save_match` records a match, the summary log has at most
10 entries, the new entry is first, and the log is exactly the 10 most
recent entries of the updated newest-first list, in order. -/
theorem save_match_bounded (player_name player_choice opponent_choice
    result timestamp : String) (prior : List SaveLoad.HistEntry) :
    (SaveLoad.save_match player_name player_choice opponent_choice
        result timestamp prior).length ≤ SaveLoad.MAX_HISTORY ∧
    (SaveLoad.save_match player_name player_choice opponent_choice
        result timestamp prior).head? =
      some { time := timestamp,
             desc := SaveLoad.match_desc player_name result } ∧
    SaveLoad.save_match player_name player_choice opponent_choice
        result timestamp prior =
      ({ time := timestamp,
         desc := SaveLoad.match_desc player_name result } :: prior).take
        SaveLoad.MAX_HISTORY := by
  refine ⟨List.length_take_le _ _, ?_, rfl⟩
  simp [SaveLoad.save_match, SaveLoad.MAX_HISTORY]

/-- Embeds `NetworkMessageType` (network.py lines 10-18). -/
inductive NetworkMessageType where
  | connect
  | disconnect
  | game_start
  | player_ready
  | player_choice
  | game_result
  | chat_message
  | error
deriving DecidableEq, Fintype

/-- Embeds the `.value` string of each `NetworkMessageType` member. -/
def NetworkMessageType.value : NetworkMessageType → String
  | .connect => "connect"
  | .disconnect => "disconnect"
  | .game_start => "game_start"
  | .player_ready => "player_ready"
  | .player_choice => "player_choice"
  | .game_result => "game_result"
  | .chat_message => "chat_message"
  | .error => "error"

/-- Embeds the enum constructor `NetworkMessageType(tag)` used in
`_process_message` (network.py line 166): an unknown tag raises
`ValueError`, modelled as `none`. -/
def NetworkMessageType.ofValue (s : String) : Option NetworkMessageType :=
  if s = "connect" then some .connect
  else if s = "disconnect" then some .disconnect
  else if s = "game_start" then some .game_start
  else if s = "player_ready" then some .player_ready
  else if s = "player_choice" then some .player_choice
  else if s = "game_result" then some .game_result
  else if s = "chat_message" then some .chat_message
  else if s = "error" then some .error
  else none

/-- How `json.loads` goes on one newline-framed payload, within the
space of payloads the claim is about: invalid JSON (raising
`JSONDecodeError`), or a JSON object whose `.get("type")` is the given
tag — `none` standing for an absent or non-string tag, which makes the
enum constructor raise `ValueError` just as an unknown string does. -/
inductive ParsedMsg where
  | invalid
  | object (typeTag : Option String)
deriving DecidableEq

/-- The observable effects of `_process_message` on one payload:
whether the invalid-format log line was printed, which handler (if any)
was invoked, which messages were written back to the connection, and
whether the connection was closed. -/
structure ProcessOutcome where
  logged : Bool
  dispatched : Option NetworkMessageType
  sent : List NetworkMessageType
  connection_closed : Bool
deriving DecidableEq

/-- Embeds `NetworkManager._process_message` (network.py lines 163-174):
parse the payload, construct the enum from its type tag, invoke the
registered handler if any; `JSONDecodeError` and `ValueError` are caught
and logged.  No reply of any kind is written, and the connection is
never closed here. -/
def process_message (m : ParsedMsg)
    (registered : NetworkMessageType → Bool) : ProcessOutcome :=
  match m with
  | .invalid =>
      { logged := true, dispatched := none, sent := [],
        connection_closed := false }
  | .object typeTag =>
      match typeTag.bind NetworkMessageType.ofValue with
      | none =>
          { logged := true, dispatched := none, sent := [],
            connection_closed := false }
      | some t =>
          { logged := false
            dispatched := if registered t then some t else none
            sent := []
            connection_closed := false }

/-- Embeds the message loop of `NetworkManager._handle_client`
(network.py lines 117-138, and identically `_receive_messages`): each
complete newline-framed payload is handed to `_process_message`, whose
error handling returns normally, so the loop continues to the next
payload. -/
def handle_client_messages (ms : List ParsedMsg)
    (registered : NetworkMessageType → Bool) : List ProcessOutcome :=
  ms.map (fun m => process_message m registered)

/-- Decides whether a payload is malformed in the claim's sense: invalid
JSON, or a type tag that is not a `NetworkMessageType` value. -/
def is_malformed : ParsedMsg → Bool
  | .invalid => true
  | .object typeTag => (typeTag.bind NetworkMessageType.ofValue).isNone

/-- Helper: the enum round-trips through its value string. -/
theorem networkMessageType_ofValue_value (t : NetworkMessageType) :
    NetworkMessageType.ofValue t.value = some t := by
  cases t <;> rfl

/-- C8 counterexample: on an invalid-JSON payload, with every handler
registered, `_process_message` sends nothing at all — in particular no
`error`-type reply to the offending connection, contrary to the claim. -/
theorem process_message_no_error_reply :
    ¬ (NetworkMessageType.error ∈
        (process_message ParsedMsg.invalid (fun _ => true)).sent) := by
  decide

/-- C8 amended: a malformed payload (invalid JSON or unknown type tag)
is logged and never terminates the connection, but no reply of any kind
— in particular no `error`-type reply — is sent; a subsequent
well-formed message on the same connection is still delivered to its
registered handler. -/
theorem process_message_malformed_safe (m : ParsedMsg)
    (registered : NetworkMessageType → Bool)
    (hm : is_malformed m = true) :
    (process_message m registered).logged = true ∧
    (process_message m registered).connection_closed = false ∧
    (process_message m registered).sent = [] ∧
    ∀ t : NetworkMessageType, registered t = true →
      (handle_client_messages [m, ParsedMsg.object (some t.value)]
          registered).get? 1 =
        some { logged := false, dispatched := some t, sent := [],
               connection_closed := false } := by
  have hout : process_message m registered =
      { logged := true, dispatched := none, sent := [],
        connection_closed := false } := by
    cases m with
    | invalid => rfl
    | object typeTag =>
        simp only [is_malformed, Option.isNone_iff_eq_none] at hm
        simp [process_message, hm]
  refine ⟨by rw [hout], by rw [hout], by rw [hout], ?_⟩
  intro t ht
  simp [handle_client_messages, process_message,
    networkMessageType_ofValue_value, ht]

/-- Witness for C8 amended: an invalid-JSON payload with all handlers
registered, followed by a well-formed `player_choice` message. -/
theorem process_message_malformed_safe_witness :
    (process_message ParsedMsg.invalid (fun _ => true)).logged = true ∧
    (process_message ParsedMsg.invalid (fun _ => true)).connection_closed
      = false ∧
    (process_message ParsedMsg.invalid (fun _ => true)).sent = [] ∧
    (handle_client_messages
        [ParsedMsg.invalid,
         ParsedMsg.object (some NetworkMessageType.player_choice.value)]
        (fun _ => true)).get? 1 =
      some { logged := false,
             dispatched := some NetworkMessageType.player_choice,
             sent := [], connection_closed := false } := by
  obtain ⟨h1, h2, h3, h4⟩ :=
    process_message_malformed_safe ParsedMsg.invalid (fun _ => true)
      (by decide)
  exact ⟨h1, h2, h3, h4 NetworkMessageType.player_choice rfl⟩

end RPSSpec
